import Mathlib

/-!
Verification of the Transit Data Engine (static GTFS tables, GTFS-Realtime
snapshot decoding, enrichment, spatial query, and integrity checks) against
its natural-language specification.  The Lean definitions below are a shallow
embedding of the Python sources:

  - src/sources/gtfs_realtime/snapshot_loader.py (decoder and snapshot load)
  - src/sources/gtfs_realtime/pb_reader.py (feed timestamp extraction)
  - src/sources/gtfs_static/reader.py (static table loading)
  - src/mcp_servers/execution/tools.py (haversine, vehicle queries, backfill)
  - src/mcp_servers/planning/tools.py (integrity report)

Pandas dataframes are embedded as lists of typed row structures; nullable
cells are Option values; Python floats are idealized as real numbers;
functions that raise become Except-valued.
-/

namespace Transit

/-! ## Pandas-style helpers -/

/-- Python truthiness on protobuf strings: the expression
"s if s else None" maps the empty string to None. -/
def strOrNone (s : String) : Option String :=
  if s = "" then none else some s

/-- Conversion applied by astype on an object-dtype pandas column holding
Python None: str(None) is the string "None". -/
def pdStrObj (o : Option String) : String :=
  match o with
  | some s => s
  | none => "None"

/-- Conversion applied by astype on a CSV-loaded pandas column whose missing
values are float NaN: str(nan) is the string "nan". -/
def pdStrNa (o : Option String) : String :=
  match o with
  | some s => s
  | none => "nan"

/-! ## Protobuf model (gtfs_realtime_pb2, proto2 presence semantics)

Fields read through HasField checks are Option; proto2 scalar fields read
directly (returning their default value when unset) are plain values. -/

/-- Position message: latitude and longitude are required fields, bearing and
speed are optional (checked with HasField in the decoder). -/
structure PBPosition where
  latitude : ℝ
  longitude : ℝ
  bearing : Option ℝ
  speed : Option ℝ

/-- VehicleDescriptor: id, label and license_plate are optional strings whose
accessor returns the empty string when unset (the decoder tests truthiness,
not HasField, on them). -/
structure PBVehicleDescriptor where
  id : String
  label : String
  license_plate : String

/-- TripDescriptor: trip_id and route_id accessors default to the empty
string; direction_id presence is checked with HasField. -/
structure PBTripDescriptor where
  trip_id : String
  route_id : String
  direction_id : Option Int

/-- VehiclePosition message fields used by the decoder. -/
structure PBVehiclePosition where
  vehicle : Option PBVehicleDescriptor
  trip : Option PBTripDescriptor
  position : Option PBPosition
  stop_id : Option String
  timestamp : Option Int
  current_status : Option Int
  current_stop_sequence : Option Int

/-- StopTimeEvent: time and delay presence checked with HasField. -/
structure PBStopTimeEvent where
  time : Option Int
  delay : Option Int

/-- StopTimeUpdate: stop_sequence presence checked with HasField; stop_id is
read by truthiness; arrival and departure presence checked with HasField. -/
structure PBStopTimeUpdate where
  stop_sequence : Option Int
  stop_id : String
  arrival : Option PBStopTimeEvent
  departure : Option PBStopTimeEvent

/-- TripUpdate message fields used by the decoder.  The trip descriptor is
accessed without a HasField check, so an unset descriptor behaves as the
default instance (all fields at their defaults). -/
structure PBTripUpdate where
  trip : PBTripDescriptor
  timestamp : Option Int
  delay : Option Int
  vehicle : Option PBVehicleDescriptor
  stop_time_update : List PBStopTimeUpdate

/-- One translation of a TranslatedString. -/
structure PBTranslation where
  text : String

/-- TranslatedString: a list of translations. -/
structure PBTranslatedString where
  translation : List PBTranslation

/-- Alert message fields used by the decoder. -/
structure PBAlert where
  cause : Option Int
  effect : Option Int
  header_text : Option PBTranslatedString
  description_text : Option PBTranslatedString

/-- FeedHeader: the timestamp accessor is a uint64 defaulting to zero. -/
structure PBFeedHeader where
  timestamp : Int

/-- FeedEntity: the payload is a one-of; each present payload is modelled as
an Option (HasField in the decoder). -/
structure PBFeedEntity where
  id : String
  vehicle : Option PBVehiclePosition
  trip_update : Option PBTripUpdate
  alert : Option PBAlert

/-- A parsed FeedMessage. -/
structure FeedMessage where
  header : PBFeedHeader
  entity : List PBFeedEntity

/-- Embeds feed_timestamp from pb_reader.py: the header timestamp when
positive, else None. -/
def feedTimestamp (feed : FeedMessage) : Option Int :=
  if feed.header.timestamp > 0 then some feed.header.timestamp else none

/-! ## Realtime decoder (SnapshotLoader in snapshot_loader.py) -/

/-- One decoded vehicle-position row (a row of the vehicle_positions
dataframe built by SnapshotLoader._vehicle_positions_df). -/
structure VPRow where
  feed_timestamp : Option Int
  entity_id : Option String
  vehicle_id : Option String
  vehicle_label : Option String
  vehicle_license_plate : Option String
  trip_id : Option String
  route_id : Option String
  direction_id : Option Int
  stop_id : Option String
  vehicle_timestamp : Option Int
  current_status : Option Int
  current_stop_sequence : Option Int
  lat : Option ℝ
  lon : Option ℝ
  bearing : Option ℝ
  speed : Option ℝ

/-- Embeds SnapshotLoader._vehicle_positions_df: entities without a vehicle
payload are skipped; string fields are null when unset or empty; lat and lon
are set together from the position submessage or are both null. -/
def vehiclePositionsDf (feed : FeedMessage) (feedTs : Option Int) : List VPRow :=
  feed.entity.filterMap fun e =>
    e.vehicle.map fun v =>
      { feed_timestamp := feedTs
        entity_id := strOrNone e.id
        vehicle_id := v.vehicle.bind fun d => strOrNone d.id
        vehicle_label := v.vehicle.bind fun d => strOrNone d.label
        vehicle_license_plate := v.vehicle.bind fun d => strOrNone d.license_plate
        trip_id := v.trip.bind fun t => strOrNone t.trip_id
        route_id := v.trip.bind fun t => strOrNone t.route_id
        direction_id := v.trip.bind fun t => t.direction_id
        stop_id := v.stop_id.bind fun s => strOrNone s
        vehicle_timestamp := v.timestamp
        current_status := v.current_status
        current_stop_sequence := v.current_stop_sequence
        lat := v.position.map (fun p => p.latitude)
        lon := v.position.map (fun p => p.longitude)
        bearing := v.position.bind (fun p => p.bearing)
        speed := v.position.bind (fun p => p.speed) }

/-- One decoded trip-update row. -/
structure TURow where
  feed_timestamp : Option Int
  entity_id : Option String
  trip_id : Option String
  route_id : Option String
  direction_id : Option Int
  timestamp : Option Int
  delay : Option Int
  vehicle_id : Option String

/-- One decoded stop-time-update row. -/
structure STURow where
  feed_timestamp : Option Int
  entity_id : Option String
  trip_id : Option String
  route_id : Option String
  stop_sequence : Option Int
  stop_id : Option String
  arrival_time : Option Int
  arrival_delay : Option Int
  departure_time : Option Int
  departure_delay : Option Int

/-- Embeds SnapshotLoader._trip_updates_df (the trip-level rows). -/
def tripUpdatesDf (feed : FeedMessage) (feedTs : Option Int) : List TURow :=
  feed.entity.filterMap fun e =>
    e.trip_update.map fun tu =>
      { feed_timestamp := feedTs
        entity_id := strOrNone e.id
        trip_id := strOrNone tu.trip.trip_id
        route_id := strOrNone tu.trip.route_id
        direction_id := tu.trip.direction_id
        timestamp := tu.timestamp
        delay := tu.delay
        vehicle_id := tu.vehicle.bind fun d => strOrNone d.id }

/-- Embeds SnapshotLoader._trip_updates_df (the child stop-time rows). -/
def stopTimeUpdatesDf (feed : FeedMessage) (feedTs : Option Int) : List STURow :=
  feed.entity.flatMap fun e =>
    match e.trip_update with
    | none => []
    | some tu =>
      tu.stop_time_update.map fun stu =>
        { feed_timestamp := feedTs
          entity_id := strOrNone e.id
          trip_id := strOrNone tu.trip.trip_id
          route_id := strOrNone tu.trip.route_id
          stop_sequence := stu.stop_sequence
          stop_id := strOrNone stu.stop_id
          arrival_time := stu.arrival.bind (fun ev => ev.time)
          arrival_delay := stu.arrival.bind (fun ev => ev.delay)
          departure_time := stu.departure.bind (fun ev => ev.time)
          departure_delay := stu.departure.bind (fun ev => ev.delay) }

/-- One decoded alert row. -/
structure AlertRow where
  feed_timestamp : Option Int
  entity_id : Option String
  cause : Option Int
  effect : Option Int
  header_text : Option String
  description_text : Option String

/-- Embeds SnapshotLoader._alerts_df. -/
def alertsDf (feed : FeedMessage) (feedTs : Option Int) : List AlertRow :=
  feed.entity.filterMap fun e =>
    e.alert.map fun a =>
      { feed_timestamp := feedTs
        entity_id := strOrNone e.id
        cause := a.cause
        effect := a.effect
        header_text := a.header_text.bind
          (fun ts => (ts.translation.head?).map (fun tr => tr.text))
        description_text := a.description_text.bind
          (fun ts => (ts.translation.head?).map (fun tr => tr.text)) }

/-! ## Snapshot loading (SnapshotLoader.load_snapshot_dir)

The three feed files of a snapshot directory are modelled by what the file
system and the protobuf parser yield for each of them: none when the file
does not exist, some (Except.error e) when the bytes are not a valid
serialized FeedMessage (ParseFromString raises a decode error), and
some (Except.ok feed) when parsing succeeds.  parse_feed in pb_reader.py
performs no error handling of its own, so its result is exactly this
Except value. -/

/-- The decode error raised by the protobuf parser for malformed bytes. -/
structure DecodeError where
  msg : String

/-- The decoded tables of one snapshot (dataclass SnapshotFrames). -/
structure SnapshotFrames where
  snapshot_dir : String
  feed_timestamp : Option Int
  vehicle_positions : List VPRow
  trip_updates : List TURow
  trip_update_stop_times : List STURow
  alerts : List AlertRow

/-- Embeds SnapshotLoader.load_snapshot_dir.  Each of the three files is
handled in order (vehicle positions, trip updates, alerts): a missing file
yields an empty table; a present file is parsed, and a parse failure
propagates out of the whole call (the source has no handler: the except
blocks in the variant under src/data log and re-raise, and the loader under
src/sources has no try at all).  The feed timestamp is taken from the first
file, with later files filling it only when it is still null. -/
def loadSnapshotDir (snapshotDir : String)
    (vpFile tuFile alFile : Option (Except DecodeError FeedMessage)) :
    Except DecodeError SnapshotFrames := do
  let (ts1, vpDf) ←
    match vpFile with
    | some parsed => do
        let feed ← parsed
        let ts := feedTimestamp feed
        pure (ts, vehiclePositionsDf feed ts)
    | none => pure (none, ([] : List VPRow))
  let (ts2, tuDf, stuDf) ←
    match tuFile with
    | some parsed => do
        let feed ← parsed
        let ts := ts1.orElse (fun _ => feedTimestamp feed)
        pure (ts, tripUpdatesDf feed ts, stopTimeUpdatesDf feed ts)
    | none => pure (ts1, ([] : List TURow), ([] : List STURow))
  let (ts3, alDf) ←
    match alFile with
    | some parsed => do
        let feed ← parsed
        let ts := ts2.orElse (fun _ => feedTimestamp feed)
        pure (ts, alertsDf feed ts)
    | none => pure (ts2, ([] : List AlertRow))
  pure {
    snapshot_dir := snapshotDir
    feed_timestamp := ts3
    vehicle_positions := vpDf
    trip_updates := tuDf
    trip_update_stop_times := stuDf
    alerts := alDf }

/-! ## Haversine distance (execution/tools.py, _haversine_m) -/

/-- Embeds math.radians: degrees to radians. -/
noncomputable def radians (x : ℝ) : ℝ := x * Real.pi / 180

/-- Embeds _haversine_m: great-circle distance in meters on a sphere of
radius 6371000. -/
noncomputable def haversineM (lat1 lon1 lat2 lon2 : ℝ) : ℝ :=
  let r : ℝ := 6371000
  let phi1 := radians lat1
  let phi2 := radians lat2
  let dphi := radians (lat2 - lat1)
  let dlambda := radians (lon2 - lon1)
  let a := Real.sin (dphi / 2) ^ 2 +
    Real.cos phi1 * Real.cos phi2 * Real.sin (dlambda / 2) ^ 2
  2 * r * Real.arcsin (Real.sqrt a)

/-! ## Vehicle queries (execution/tools.py) -/

/-- Errors raised by the execution tools. -/
inductive ToolError where
  | valueError (msg : String)
  | keyError (msg : String)
deriving DecidableEq

/-- The VehiclePosition result schema of get_vehicle_position. -/
structure VehiclePositionOut where
  vehicle_id : String
  lat : ℝ
  lon : ℝ
  route_id : Option String
  trip_id : Option String
  feed_timestamp : Option Int
  vehicle_timestamp : Option Int

/-- Embeds get_vehicle_position over an already-loaded vehicle_positions
table (the snapshot resolution and artifact plumbing are outside the
engine).  The vehicle_id column always exists in decoder output, so the
column-presence half of the first guard is statically true.  Matching
compares the string form of the vehicle_id cell with the requested
identifier; the first matching row in feed order is used. -/
def getVehiclePosition (feedTs : Option Int) (vp : List VPRow)
    (vehicle_id : String) : Except ToolError VehiclePositionOut :=
  if vp.isEmpty then
    .error (.valueError "vehicle_positions is empty or missing vehicle_id column")
  else
    match vp.filter (fun r => pdStrObj r.vehicle_id = vehicle_id) with
    | [] => .error (.keyError ("Vehicle not found in snapshot: " ++ vehicle_id))
    | r0 :: _ =>
      match r0.lat, r0.lon with
      | some la, some lo =>
        .ok {
          vehicle_id := vehicle_id
          lat := la
          lon := lo
          route_id := r0.route_id
          trip_id := r0.trip_id
          feed_timestamp := feedTs
          vehicle_timestamp := r0.vehicle_timestamp }
      | _, _ =>
        .error (.valueError ("Vehicle " ++ vehicle_id ++ " has missing lat/lon in snapshot"))

/-- Embeds the dropna over lat, lon and vehicle_id in vehicles_near_vehicle:
the rows with all three cells non-null. -/
def validRows (vp : List VPRow) : List VPRow :=
  vp.filter (fun r => r.lat.isSome && r.lon.isSome && r.vehicle_id.isSome)

/-- Embeds count_considered in vehicles_near_vehicle: the number of valid
rows, taken before the reference vehicle is excluded and before the radius
filter. -/
def countConsidered (vp : List VPRow) : Nat :=
  (validRows vp).length

/-- Embeds the loop of vehicles_near_vehicle: over the valid rows, skip the
reference vehicle (string identifier equality), compute the haversine
distance to the center and keep pairs within the radius, in feed order. -/
noncomputable def nearbyUnsorted (vp : List VPRow) (vehicle_id : String)
    (clat clon radius : ℝ) : List (String × ℝ) :=
  (validRows vp).filterMap fun r =>
    let vid := pdStrObj r.vehicle_id
    if vid = vehicle_id then none
    else
      let d := haversineM clat clon (r.lat.getD 0) (r.lon.getD 0)
      if d ≤ radius then some (vid, d) else none

/-- The within-radius pairs sorted ascending by distance (nearby.sort with
key distance), before the limit is applied. -/
noncomputable def nearbySorted (vp : List VPRow) (vehicle_id : String)
    (clat clon radius : ℝ) : List (String × ℝ) :=
  (nearbyUnsorted vp vehicle_id clat clon radius).mergeSort
    (fun a b => decide (a.2 ≤ b.2))

/-- The NearbyVehiclesOutput result schema. -/
structure NearbyOut where
  center : VehiclePositionOut
  nearby : List (String × ℝ)
  count_considered : Nat

/-- Embeds vehicles_near_vehicle: resolve the center via
get_vehicle_position, then report the sorted within-radius pairs truncated
to the limit, together with count_considered. -/
noncomputable def vehiclesNearVehicle (feedTs : Option Int) (vp : List VPRow)
    (vehicle_id : String) (radius : ℝ) (limit : Nat) :
    Except ToolError NearbyOut :=
  if vp.isEmpty then
    .error (.valueError "vehicle_positions missing required columns vehicle_id/lat/lon")
  else do
    let center ← getVehiclePosition feedTs vp vehicle_id
    pure {
      center := center
      nearby := (nearbySorted vp vehicle_id center.lat center.lon radius).take limit
      count_considered := countConsidered vp }

/-- Modelled from the spec (for comparison with the source): the candidate
set of the nearest-vehicle search, namely all rows with non-null vehicle id,
latitude and longitude, excluding the reference vehicle itself, matched by
identifier equality as strings. -/
def specCandidateSet (vp : List VPRow) (vehicle_id : String) : List VPRow :=
  vp.filter (fun r =>
    r.vehicle_id.isSome && r.lat.isSome && r.lon.isSome &&
      decide (pdStrObj r.vehicle_id ≠ vehicle_id))

/-! ## Route-id backfill (active_routes_with_vehicles, execution/tools.py)

The static trips table is modelled by its trip_id and route_id columns
(nullable cells) together with flags recording whether the two columns are
present at all in the loaded dataframe. -/

/-- The static trips table as seen by the backfill and integrity code. -/
structure TripsTable where
  hasTripIdCol : Bool
  hasRouteIdCol : Bool
  rows : List (Option String × Option String)

/-- The (trip_id, route_id) pairs surviving the dropna over both columns
(trips_df after dropna and astype to strings). -/
def tripsPairs (trips : TripsTable) : List (String × String) :=
  trips.rows.filterMap fun t => t.1.bind fun a => t.2.map fun b => (a, b)

/-- Per-row effect of the backfill merge in active_routes_with_vehicles:
the frame is left-merged against the (trip_id, route_id) pairs on the
string form of trip_id, so a row expands into one output row per matching
trips pair (keeping the row, with a null fill source, when none matches),
and each output row's route_id is passed through fillna with the matching
pair's route_id: a null is filled, a non-null value is kept.  The astype
call rewrites the trip_id column to its string form on the merged frame. -/
def backfillRow (pairs : List (String × String)) (r : VPRow) : List VPRow :=
  match pairs.filter (fun t => t.1 = pdStrObj r.trip_id) with
  | [] => [{ r with trip_id := some (pdStrObj r.trip_id) }]
  | ms => ms.map (fun t =>
      { r with
        trip_id := some (pdStrObj r.trip_id)
        route_id := r.route_id.orElse (fun _ => some t.2) })

/-- Embeds the backfill block as a whole: the merge-and-fill runs only when
some row actually has a null route_id and the trips table is usable;
otherwise the frame passes through unchanged. -/
def routeIdBackfill (trips : TripsTable) (df : List VPRow) : List VPRow :=
  if df.any (fun r => r.route_id.isNone) then
    if !trips.rows.isEmpty && (trips.hasTripIdCol && trips.hasRouteIdCol) then
      df.flatMap (backfillRow (tripsPairs trips))
    else df
  else df

/-! ## Static table loading (gtfs_static/reader.py)

A static directory is modelled by the list of file base names it contains
together with the parsed CSV contents of each file. -/

/-- A static GTFS directory: its files and the rows read from each file. -/
structure StaticDir where
  files : List String
  content : String → List (List String)

/-- The error raised when a configured stem matches no file. -/
inductive StaticLoadError where
  | fileNotFound (msg : String)
deriving DecidableEq

/-- Embeds Path(x).name: the last path component. -/
def pathName (s : String) : String :=
  match (s.splitOn "/").reverse with
  | [] => s
  | x :: _ => x

/-- Embeds the stem/suffix split of a base name at its last dot. -/
def splitExt (name : String) : String × String :=
  match (name.splitOn ".").reverse with
  | [] => (name, "")
  | [_] => (name, "")
  | last :: rest => (String.intercalate "." rest.reverse, "." ++ last)

/-- Extension priority used for the deterministic candidate tie-break:
.txt before .csv before anything else. -/
def extPriority (suf : String) : Nat :=
  if suf = ".txt" then 0 else if suf = ".csv" then 1 else 9

/-- The candidate ordering of _resolve_table_filename: by extension
priority, then lowercased suffix, then lowercased name. -/
def candidateLe (a b : String) : Bool :=
  let sa := (splitExt (pathName a)).2.toLower
  let sb := (splitExt (pathName b)).2.toLower
  let pa := extPriority sa
  let pb := extPriority sb
  decide (pa < pb) ||
    (decide (pa = pb) &&
      (decide (sa < sb) || (decide (sa = sb) && decide (a.toLower ≤ b.toLower))))

/-- Embeds _resolve_table_filename: an entry with a dot in its base name is
an exact filename; a bare stem selects among the files with that stem,
failing when none exists and tie-breaking deterministically otherwise. -/
def resolveTableFilename (dir : StaticDir) (entry : String) :
    Except StaticLoadError String :=
  let entry := entry.trim
  if entry = "" then .ok entry
  else if (pathName entry).contains '.' then .ok (pathName entry)
  else
    let stem := (splitExt (pathName entry)).1
    match dir.files.filter (fun f => (splitExt f).1 = stem) with
    | [] => .error (.fileNotFound ("Static table " ++ stem ++ " not found"))
    | cs => .ok ((cs.mergeSort candidateLe).headI)

/-- Embeds _table_key_from_filename: the stripped, lowercased stem. -/
def tableKeyFromFilename (filename : String) : String :=
  ((splitExt (pathName filename)).1).trim.toLower

/-- Embeds read_gtfs_table: a missing file yields an empty table. -/
def readGtfsTable (dir : StaticDir) (filename : String) : List (List String) :=
  if dir.files.contains filename then dir.content filename else []

/-- Python dict assignment on the tables mapping: replace an existing key in
place, else append. -/
def insertTable (tables : List (String × List (List String))) (key : String)
    (df : List (List String)) : List (String × List (List String)) :=
  if tables.any (fun kv => kv.1 = key) then
    tables.map (fun kv => if kv.1 = key then (key, df) else kv)
  else tables ++ [(key, df)]

/-- Embeds the loading loop of read_static_dir_from_yaml: resolve each
configured entry, then read it into the named table set.  The entry list
comes straight from configuration; nothing in this function (or its callees)
inspects whether the list is empty. -/
def readStaticDir (dir : StaticDir) (entries : List String) :
    Except StaticLoadError (List (String × List (List String))) :=
  entries.foldlM
    (fun tables entry => do
      let resolved ← resolveTableFilename dir entry
      pure (insertTable tables (tableKeyFromFilename resolved)
        (readGtfsTable dir resolved)))
    []

/-! ## Integrity report (planning/tools.py, integrity_report) -/

/-- The static routes table as seen by the integrity check: its route_id
column and whether that column exists. -/
structure RoutesTable where
  hasRouteIdCol : Bool
  rows : List (Option String)

/-- The static stop_times table as seen by the integrity check: its trip_id
column and whether that column exists. -/
structure StopTimesTable where
  hasTripIdCol : Bool
  rows : List (Option String)

/-- The IntegrityReportOutput schema: the two counts plus the keys of the
emitted offending-row artifacts. -/
structure IntegrityOut where
  missing_route_refs_in_trips : Nat
  missing_trip_refs_in_stop_times : Nat
  detailKeys : List String

/-- Guard of the trips-to-routes referential check: both tables non-empty
and both route_id columns present. -/
def routeCheckGuard (trips : TripsTable) (routes : RoutesTable) : Bool :=
  !trips.rows.isEmpty && !routes.rows.isEmpty &&
    trips.hasRouteIdCol && routes.hasRouteIdCol

/-- The offending trips rows of the trips-to-routes check: when the guard
holds, the rows whose string-form route_id is absent from the non-null
route_id strings of the routes table (the isin set after dropna and
astype); an empty row set when the check is skipped. -/
def badRouteRows (trips : TripsTable) (routes : RoutesTable) :
    List (Option String × Option String) :=
  if routeCheckGuard trips routes then
    trips.rows.filter
      (fun t => !((routes.rows.filterMap id).contains (pdStrNa t.2)))
  else []

/-- Guard of the stop_times-to-trips referential check. -/
def tripCheckGuard (trips : TripsTable) (st : StopTimesTable) : Bool :=
  !st.rows.isEmpty && !trips.rows.isEmpty &&
    st.hasTripIdCol && trips.hasTripIdCol

/-- The offending stop_times rows of the stop_times-to-trips check. -/
def badTripRows (trips : TripsTable) (st : StopTimesTable) :
    List (Option String) :=
  if tripCheckGuard trips st then
    st.rows.filter
      (fun s => !((trips.rows.filterMap (fun t => t.1)).contains (pdStrNa s)))
  else []

/-- Embeds integrity_report: each referential check runs only when both of
its tables are non-empty and carry the joined column, and otherwise reports
zero; a check that runs counts the rows whose string-form key is absent from
the referenced table's non-null key strings, and emits its offending-row
artifact exactly when that set of rows is non-empty. -/
def integrityReport (trips : TripsTable) (routes : RoutesTable)
    (st : StopTimesTable) : IntegrityOut :=
  { missing_route_refs_in_trips := (badRouteRows trips routes).length
    missing_trip_refs_in_stop_times := (badTripRows trips st).length
    detailKeys :=
      (if (badRouteRows trips routes).isEmpty then []
       else ["trips_with_missing_route"]) ++
      (if (badTripRows trips st).isEmpty then []
       else ["stop_times_with_missing_trip"]) }

/-! ## Concrete fixtures for counterexamples and witnesses -/

/-- A vehicle-position row with every cell null. -/
def blankVPRow : VPRow :=
  { feed_timestamp := none, entity_id := none, vehicle_id := none,
    vehicle_label := none, vehicle_license_plate := none, trip_id := none,
    route_id := none, direction_id := none, stop_id := none,
    vehicle_timestamp := none, current_status := none,
    current_stop_sequence := none, lat := none, lon := none,
    bearing := none, speed := none }

/-- Scenario B reference vehicle V1 at (42.0, -71.0). -/
def rowV1 : VPRow :=
  { blankVPRow with vehicle_id := some "V1", lat := some 42, lon := some (-71) }

/-- Scenario B nearby vehicle V2 at (42.001, -71.001). -/
def rowV2 : VPRow :=
  { blankVPRow with
    vehicle_id := some "V2", lat := some 42.001, lon := some (-71.001) }

/-- Scenario A vehicle-position row: trip T1, null route_id. -/
def rowT1 : VPRow := { blankVPRow with trip_id := some "T1" }

/-- Scenario A expected enriched row: route_id resolved to R1. -/
def rowT1R1 : VPRow :=
  { blankVPRow with trip_id := some "T1", route_id := some "R1" }

/-- Scenario A static trips table: T1 maps to R1. -/
def exTripsA : TripsTable := ⟨true, true, [(some "T1", some "R1")]⟩

/-! ## C8: haversine symmetry and vanishing on the diagonal -/

/-- Closed form of the haversine embedding, for rewriting. -/
theorem haversineM_eq (lat1 lon1 lat2 lon2 : ℝ) :
    haversineM lat1 lon1 lat2 lon2 =
      2 * 6371000 * Real.arcsin (Real.sqrt
        (Real.sin (radians (lat2 - lat1) / 2) ^ 2 +
          Real.cos (radians lat1) * Real.cos (radians lat2) *
            Real.sin (radians (lon2 - lon1) / 2) ^ 2)) := rfl

/-- C8: the haversine distance function (Earth radius 6371000 m, degree
inputs converted to radians) is symmetric in its two coordinate pairs, and
is zero on every pair of identical coordinates. -/
theorem haversine_symm_and_self_zero :
    (∀ lat1 lon1 lat2 lon2 : ℝ,
      haversineM lat1 lon1 lat2 lon2 = haversineM lat2 lon2 lat1 lon1) ∧
    (∀ lat lon : ℝ, haversineM lat lon lat lon = 0) := by
  constructor
  · intro lat1 lon1 lat2 lon2
    rw [haversineM_eq, haversineM_eq]
    have h1 : radians (lat1 - lat2) = -(radians (lat2 - lat1)) := by
      unfold radians; ring
    have h2 : radians (lon1 - lon2) = -(radians (lon2 - lon1)) := by
      unfold radians; ring
    rw [h1, h2, neg_div, neg_div, Real.sin_neg, Real.sin_neg, neg_sq, neg_sq]
    ring_nf
  · intro lat lon
    rw [haversineM_eq]
    have h0 : radians (lat - lat) = 0 := by unfold radians; ring
    have h1 : radians (lon - lon) = 0 := by unfold radians; ring
    rw [h0, h1]
    simp

/-! ## C7 and C9: decoder row invariants -/

/-- C7: in every decoded vehicle-position row, the lat and lon cells are
either both present or both null; the decoder never produces exactly one of
the two coordinates. -/
theorem decoder_lat_lon_paired :
    ∀ (feed : FeedMessage) (feedTs : Option Int),
      (vehiclePositionsDf feed feedTs).Forall
        (fun r => r.lat.isSome = r.lon.isSome) := by
  intro feed feedTs
  rw [List.forall_iff_forall_mem]
  intro r hr
  rcases List.mem_filterMap.mp hr with ⟨e, -, heq⟩
  rcases Option.map_eq_some'.mp heq with ⟨v, -, rfl⟩
  cases v.position <;> rfl

/-- A truthiness-normalized string is never the empty string. -/
theorem strOrNone_ne_empty (s : String) : strOrNone s ≠ some "" := by
  unfold strOrNone
  split <;> simp_all

/-- Lifting of strOrNone_ne_empty through an optional submessage. -/
theorem bind_strOrNone_ne_empty {α : Type} (o : Option α) (g : α → String) :
    (o.bind fun d => strOrNone (g d)) ≠ some "" := by
  cases o with
  | none => simp
  | some d => exact strOrNone_ne_empty (g d)

/-- C9: the decoder normalizes empty protobuf strings to null — in every
decoded vehicle-position row, the entity_id, vehicle id, label, license
plate, trip_id, route_id and stop_id cells are never the empty string. -/
theorem decoder_no_empty_strings :
    ∀ (feed : FeedMessage) (feedTs : Option Int),
      (vehiclePositionsDf feed feedTs).Forall
        (fun r => r.entity_id ≠ some "" ∧ r.vehicle_id ≠ some "" ∧
          r.vehicle_label ≠ some "" ∧ r.vehicle_license_plate ≠ some "" ∧
          r.trip_id ≠ some "" ∧ r.route_id ≠ some "" ∧
          r.stop_id ≠ some "") := by
  intro feed feedTs
  rw [List.forall_iff_forall_mem]
  intro r hr
  rcases List.mem_filterMap.mp hr with ⟨e, -, heq⟩
  rcases Option.map_eq_some'.mp heq with ⟨v, -, rfl⟩
  refine ⟨strOrNone_ne_empty e.id, ?_, ?_, ?_, ?_, ?_, ?_⟩
  · exact bind_strOrNone_ne_empty v.vehicle (fun d => d.id)
  · exact bind_strOrNone_ne_empty v.vehicle (fun d => d.label)
  · exact bind_strOrNone_ne_empty v.vehicle (fun d => d.license_plate)
  · exact bind_strOrNone_ne_empty v.trip (fun t => t.trip_id)
  · exact bind_strOrNone_ne_empty v.trip (fun t => t.route_id)
  · exact bind_strOrNone_ne_empty v.stop_id (fun s => s)

/-! ## C2: decode failures abort the snapshot load -/

/-- C2 counterexample: with the vehicle-positions file present but
undecodable and the other two files valid, load_snapshot_dir propagates the
decode error: the snapshot load as a whole fails, and no tables are
produced, contrary to the claim that only that file fails. -/
theorem snapshot_load_decode_counterexample :
    loadSnapshotDir "20250101T000000Z"
        (some (Except.error ⟨"truncated FeedMessage"⟩))
        (some (Except.ok ⟨⟨0⟩, []⟩)) (some (Except.ok ⟨⟨0⟩, []⟩)) =
      Except.error ⟨"truncated FeedMessage"⟩ := rfl

/-- C2 amended: a present file that fails to parse as a FeedMessage aborts
the whole snapshot load with its decode error, whichever of the three files
it is; only a missing file is tolerated, yielding an empty table for it
while the remaining files are still decoded. -/
theorem snapshot_load_decode_amended :
    (∀ (d : String) (e : DecodeError) tuF alF,
      loadSnapshotDir d (some (Except.error e)) tuF alF = Except.error e) ∧
    (∀ (d : String) (f : FeedMessage) (e : DecodeError) alF,
      loadSnapshotDir d (some (Except.ok f)) (some (Except.error e)) alF =
        Except.error e) ∧
    (∀ (d : String) (f g : FeedMessage) (e : DecodeError),
      loadSnapshotDir d (some (Except.ok f)) (some (Except.ok g))
        (some (Except.error e)) = Except.error e) ∧
    (∀ (d : String) (g h : FeedMessage),
      loadSnapshotDir d none (some (Except.ok g)) (some (Except.ok h)) =
        Except.ok {
          snapshot_dir := d
          feed_timestamp :=
            (feedTimestamp g).orElse (fun _ => feedTimestamp h)
          vehicle_positions := []
          trip_updates := tripUpdatesDf g (feedTimestamp g)
          trip_update_stop_times := stopTimeUpdatesDf g (feedTimestamp g)
          alerts := alertsDf h
            ((feedTimestamp g).orElse (fun _ => feedTimestamp h)) }) := by
  exact ⟨fun d e tuF alF => rfl, fun d f e alF => rfl, fun d f g e => rfl,
    fun d g h => rfl⟩

/-! ## C3: loading with an empty entry list succeeds -/

/-- C3 counterexample: loading the static table set with an empty list of
table entries succeeds with an empty set of tables; no configuration error
is raised. -/
theorem static_load_empty_entries_counterexample :
    readStaticDir ⟨["routes.txt", "trips.txt"], fun _ => []⟩ [] =
      Except.ok [] := rfl

/-- C3 amended: for every static directory, loading with an empty entry
list succeeds and returns an empty table set; the loader raises no error on
an empty list (the explicit empty-allow-list failure exists only in the
fetch/extraction pipeline, not in read_static_dir_from_yaml). -/
theorem static_load_empty_entries_amended :
    ∀ (dir : StaticDir), readStaticDir dir [] = Except.ok [] :=
  fun _ => rfl

/-! ## C6: integrity report -/

/-- Absence from the dropna-and-stringify key set is absence of the
corresponding non-null cell: the Bool the source computes with isin over the
filterMap of non-null keys agrees with plain non-membership. -/
theorem not_contains_filterMap_id (rows : List (Option String)) (x : String) :
    (!(rows.filterMap id).contains x) = decide (some x ∉ rows) := by
  simp [decide_not]

/-- C6: the integrity check counts exactly the trips rows whose
(string-form) route_id does not occur among the routes table's non-null
route_id cells when both tables are non-empty and carry the column, and
reports 0 when the guard fails (check skipped); each check's offending-rows
artifact key is emitted exactly when its count is positive (in particular no
artifact on zero violations); and scenario D yields
missing_route_refs_in_trips = 1. -/
theorem integrity_report_spec :
    (∀ (trips : TripsTable) (routes : RoutesTable) (st : StopTimesTable),
      (integrityReport trips routes st).missing_route_refs_in_trips =
        (if routeCheckGuard trips routes then
          trips.rows.countP
            (fun t => decide (some (pdStrNa t.2) ∉ routes.rows))
        else 0) ∧
      ("trips_with_missing_route" ∈
          (integrityReport trips routes st).detailKeys ↔
        0 < (integrityReport trips routes st).missing_route_refs_in_trips) ∧
      ("stop_times_with_missing_trip" ∈
          (integrityReport trips routes st).detailKeys ↔
        0 < (integrityReport trips routes st).missing_trip_refs_in_stop_times)) ∧
    (integrityReport ⟨true, true, [(some "T1", some "R9")]⟩
      ⟨true, [some "R1"]⟩ ⟨true, []⟩).missing_route_refs_in_trips = 1 := by
  constructor
  · intro trips routes st
    refine ⟨?_, ?_, ?_⟩
    · show (badRouteRows trips routes).length = _
      unfold badRouteRows
      split
      · have heq : trips.rows.filter
            (fun t => !((routes.rows.filterMap id).contains (pdStrNa t.2))) =
            trips.rows.filter
              (fun t => decide (some (pdStrNa t.2) ∉ routes.rows)) :=
          List.filter_congr
            (fun t _ => not_contains_filterMap_id routes.rows (pdStrNa t.2))
        rw [heq, ← List.countP_eq_length_filter]
      · rfl
    · show "trips_with_missing_route" ∈ _ ↔ 0 < (badRouteRows trips routes).length
      cases hbr : (badRouteRows trips routes).isEmpty with
      | true =>
        simp [integrityReport, hbr, List.isEmpty_iff.mp hbr]
      | false =>
        have hpos : 0 < (badRouteRows trips routes).length :=
          List.length_pos.mpr (by simpa [List.isEmpty_iff] using hbr)
        simp [integrityReport, hbr, hpos]
    · show "stop_times_with_missing_trip" ∈ _ ↔ 0 < (badTripRows trips st).length
      cases hbt : (badTripRows trips st).isEmpty with
      | true =>
        simp [integrityReport, hbt, List.isEmpty_iff.mp hbt]
      | false =>
        have hpos : 0 < (badTripRows trips st).length :=
          List.length_pos.mpr (by simpa [List.isEmpty_iff] using hbt)
        simp [integrityReport, hbt, hpos]
  · rfl

/-! ## C4: route-id backfill fills only nulls -/

/-- Per-row provenance of the backfill merge: every output row of
backfillRow keeps its source row's other cells, keeps a non-null route_id
unchanged, and fills a null route_id (if at all) only from a trips pair
matching its trip_id. -/
theorem backfillRow_mem (pairs : List (String × String)) (r r' : VPRow)
    (h : r' ∈ backfillRow pairs r) :
    r'.entity_id = r.entity_id ∧ r'.vehicle_id = r.vehicle_id ∧
    (r.route_id.isSome → r'.route_id = r.route_id) ∧
    (r.route_id = none → r'.route_id = none ∨
      ∃ b, r'.route_id = some b ∧ (pdStrObj r.trip_id, b) ∈ pairs) := by
  unfold backfillRow at h
  split at h
  · rw [List.mem_singleton] at h
    subst h
    exact ⟨rfl, rfl, fun _ => rfl, fun h0 => Or.inl h0⟩
  · rcases List.mem_map.mp h with ⟨t, ht, rfl⟩
    have hkey : t.1 = pdStrObj r.trip_id := by
      have := (List.mem_filter.mp ht).2
      simpa using this
    have hpairs : t ∈ pairs := (List.mem_filter.mp ht).1
    refine ⟨rfl, rfl, ?_, ?_⟩
    · intro hsome
      rcases Option.isSome_iff_exists.mp hsome with ⟨x, hx⟩
      show r.route_id.orElse (fun _ => some t.2) = r.route_id
      rw [hx]
      rfl
    · intro h0
      right
      refine ⟨t.2, ?_, ?_⟩
      · show r.route_id.orElse (fun _ => some t.2) = some t.2
        rw [h0]
        rfl
      · rw [← hkey]
        simpa using hpairs

/-- C4: route-id backfill via the trips table fills route_id only where it
is null — every output row originates from an input row whose non-null
route_id it keeps verbatim, and a null route_id is at most filled from a
trips pair for that row's trip_id; concretely, the scenario-A row with
trip_id T1 and null route_id resolves to R1 when trips maps T1 to R1. -/
theorem route_backfill_fills_only_nulls :
    (∀ (trips : TripsTable) (df : List VPRow) (r' : VPRow),
      r' ∈ routeIdBackfill trips df →
      ∃ r, r ∈ df ∧ r'.entity_id = r.entity_id ∧
        r'.vehicle_id = r.vehicle_id ∧
        (r.route_id.isSome → r'.route_id = r.route_id) ∧
        (r.route_id = none → r'.route_id = none ∨
          ∃ b, r'.route_id = some b ∧
            (pdStrObj r.trip_id, b) ∈ tripsPairs trips)) ∧
    routeIdBackfill exTripsA [rowT1] = [rowT1R1] := by
  constructor
  · intro trips df r' hmem
    unfold routeIdBackfill at hmem
    split at hmem
    · split at hmem
      · rcases List.mem_flatMap.mp hmem with ⟨r, hr, hbody⟩
        exact ⟨r, hr, backfillRow_mem (tripsPairs trips) r r' hbody⟩
      · exact ⟨r', hmem, rfl, rfl, fun _ => rfl, fun h0 => Or.inl h0⟩
    · exact ⟨r', hmem, rfl, rfl, fun _ => rfl, fun h0 => Or.inl h0⟩
  · rfl

/-- C4 witness: the general provenance statement instantiated on the
concrete scenario-A input, whose single output row is produced by the
second half of the theorem. -/
theorem route_backfill_witness :
    ∃ r, r ∈ [rowT1] ∧ rowT1R1.entity_id = r.entity_id ∧
      rowT1R1.vehicle_id = r.vehicle_id ∧
      (r.route_id.isSome → rowT1R1.route_id = r.route_id) ∧
      (r.route_id = none → rowT1R1.route_id = none ∨
        ∃ b, rowT1R1.route_id = some b ∧
          (pdStrObj r.trip_id, b) ∈ tripsPairs exTripsA) :=
  route_backfill_fills_only_nulls.1 exTripsA [rowT1] rowT1R1
    (by rw [route_backfill_fills_only_nulls.2]; exact List.mem_singleton.mpr rfl)

/-! ## C10: get_vehicle_position uses the first matching row -/

/-- C10: when the requested identifier matches a row r preceded only by
non-matching rows, the result of get_vehicle_position is unaffected by
every row after r (dropping them changes nothing), and when r carries
coordinates the result is exactly r's position: later matching rows never
affect the result. -/
theorem get_vehicle_position_first_match (feedTs : Option Int)
    (pre : List VPRow) (r : VPRow) (rest : List VPRow) (vid : String)
    (hmatch : pdStrObj r.vehicle_id = vid)
    (hpre : ∀ x ∈ pre, pdStrObj x.vehicle_id ≠ vid) :
    getVehiclePosition feedTs (pre ++ r :: rest) vid =
      getVehiclePosition feedTs (pre ++ [r]) vid ∧
    (∀ la lo, r.lat = some la → r.lon = some lo →
      getVehiclePosition feedTs (pre ++ r :: rest) vid =
        Except.ok {
          vehicle_id := vid
          lat := la
          lon := lo
          route_id := r.route_id
          trip_id := r.trip_id
          feed_timestamp := feedTs
          vehicle_timestamp := r.vehicle_timestamp }) := by
  have hprefil : pre.filter (fun x => pdStrObj x.vehicle_id = vid) = [] := by
    rw [List.filter_eq_nil_iff]
    intro x hx
    simpa using hpre x hx
  have hfil1 : (pre ++ r :: rest).filter
      (fun x => pdStrObj x.vehicle_id = vid) =
      r :: rest.filter (fun x => pdStrObj x.vehicle_id = vid) := by
    rw [List.filter_append, hprefil, List.nil_append, List.filter_cons_of_pos]
    simpa using hmatch
  have hfil2 : (pre ++ [r]).filter (fun x => pdStrObj x.vehicle_id = vid) =
      [r] := by
    rw [List.filter_append, hprefil, List.nil_append,
      List.filter_cons_of_pos]
    · rfl
    · simpa using hmatch
  have hne1 : (pre ++ r :: rest).isEmpty = false := by
    cases pre <;> rfl
  have hne2 : (pre ++ [r]).isEmpty = false := by
    cases pre <;> rfl
  constructor
  · unfold getVehiclePosition
    rw [hne1, hne2, hfil1, hfil2]
  · intro la lo hla hlo
    unfold getVehiclePosition
    rw [hne1, hfil1]
    simp [hla, hlo]

/-- A second row for the same vehicle identifier V1, later in feed order
and at different coordinates. -/
def rowV1dup : VPRow :=
  { blankVPRow with vehicle_id := some "V1", lat := some 43, lon := some (-70) }

/-- C10 witness: with two rows for V1 in the snapshot, the result equals
the one computed from the first row alone, and is the first row's
position. -/
theorem get_vehicle_position_first_match_witness :
    getVehiclePosition none [rowV1, rowV1dup] "V1" =
      getVehiclePosition none [rowV1] "V1" ∧
    getVehiclePosition none [rowV1, rowV1dup] "V1" =
      Except.ok {
        vehicle_id := "V1"
        lat := 42
        lon := -71
        route_id := none
        trip_id := none
        feed_timestamp := none
        vehicle_timestamp := none } :=
  ⟨(get_vehicle_position_first_match none [] rowV1 [rowV1dup] "V1" rfl
      (fun x hx => absurd hx (List.not_mem_nil x))).1,
    (get_vehicle_position_first_match none [] rowV1 [rowV1dup] "V1" rfl
      (fun x hx => absurd hx (List.not_mem_nil x))).2 42 (-71) rfl rfl⟩

/-! ## C1: count_considered includes the reference vehicle -/

/-- A list splits by a Bool predicate into matching and non-matching rows. -/
theorem length_filter_split {α : Type} (l : List α) (q : α → Bool) :
    l.length = (l.filter q).length + (l.filter (fun a => !(q a))).length := by
  induction l with
  | nil => rfl
  | cons hd tl ih => cases hq : q hd <;> simp [hq, ih] <;> omega

/-- The spec-side candidate set is the valid rows minus those matching the
reference identifier. -/
theorem specCandidateSet_eq (vp : List VPRow) (vid : String) :
    specCandidateSet vp vid =
      (validRows vp).filter
        (fun r => !(decide (pdStrObj r.vehicle_id = vid))) := by
  unfold specCandidateSet validRows
  rw [List.filter_filter]
  apply List.filter_congr
  intro r _
  cases h1 : r.vehicle_id.isSome <;> cases h2 : r.lat.isSome <;>
    cases h3 : r.lon.isSome <;>
      cases h4 : decide (pdStrObj r.vehicle_id = vid) <;>
        simp_all [decide_not]

/-- C1 counterexample: on the scenario-B snapshot holding exactly the
reference vehicle V1 and one other valid vehicle V2, vehicles_near_vehicle
reports count_considered = 2, while the claimed candidate set (valid rows
excluding the reference) has size 1: the claim's equality fails because the
reference vehicle's own row is counted. -/
theorem count_considered_counterexample :
    (vehiclesNearVehicle none [rowV1, rowV2] "V1" 200 50).map
      (fun out => out.count_considered) = Except.ok 2 ∧
    (specCandidateSet [rowV1, rowV2] "V1").length = 1 := ⟨rfl, rfl⟩

/-- C1 amended: count_considered equals the size of the valid candidate set
plus the number of valid rows matching the reference identifier (so it
includes the reference vehicle's own rows; in scenario B it is 2, not 1),
and the count reported by vehicles_near_vehicle on success is exactly this
count of valid rows. -/
theorem count_considered_amended :
    (∀ (vp : List VPRow) (vid : String),
      countConsidered vp =
        (specCandidateSet vp vid).length +
          ((validRows vp).filter
            (fun r => pdStrObj r.vehicle_id = vid)).length) ∧
    (∀ (feedTs : Option Int) (vp : List VPRow) (vid : String)
        (radius : ℝ) (limit : Nat),
      (vehiclesNearVehicle feedTs vp vid radius limit).map
          (fun out => out.count_considered) =
        (vehiclesNearVehicle feedTs vp vid radius limit).map
          (fun _ => countConsidered vp)) := by
  constructor
  · intro vp vid
    have hsplit := length_filter_split (validRows vp)
      (fun r => decide (pdStrObj r.vehicle_id = vid))
    rw [countConsidered, specCandidateSet_eq]
    omega
  · intro feedTs vp vid radius limit
    unfold vehiclesNearVehicle
    split
    · rfl
    · cases hg : getVehiclePosition feedTs vp vid with
      | error e => rfl
      | ok center => rfl

/-! ## C5: shape of the nearby-vehicles result -/

/-- C5: a successful vehicles_near_vehicle result is sorted ascending by
distance, contains no entry beyond the requested radius, is an initial
segment of the full sorted within-radius list (truncation happens after
sorting only, so
the limit never changes which vehicles are within the radius), and its
length never exceeds count_considered. -/
theorem nearby_result_spec (feedTs : Option Int) (vp : List VPRow)
    (vid : String) (radius : ℝ) (limit : Nat) (out : NearbyOut)
    (h : vehiclesNearVehicle feedTs vp vid radius limit = Except.ok out) :
    List.Sorted (fun a b : String × ℝ => a.2 ≤ b.2) out.nearby ∧
    out.nearby.Forall (fun e => e.2 ≤ radius) ∧
    out.nearby <+: nearbySorted vp vid out.center.lat out.center.lon radius ∧
    out.nearby.length ≤ out.count_considered := by
  unfold vehiclesNearVehicle at h
  split at h
  · simp at h
  · cases hg : getVehiclePosition feedTs vp vid with
    | error e =>
      rw [hg] at h
      simp [Bind.bind, Except.bind] at h
    | ok center =>
      rw [hg] at h
      simp only [Bind.bind, Except.bind, pure, Except.pure, Except.ok.injEq] at h
      subst h
      refine ⟨?_, ?_, ?_, ?_⟩
      · have htrans : ∀ a b c : String × ℝ,
            decide (a.2 ≤ b.2) → decide (b.2 ≤ c.2) → decide (a.2 ≤ c.2) := by
          intro a b c hab hbc
          exact decide_eq_true
            (le_trans (of_decide_eq_true hab) (of_decide_eq_true hbc))
        have htotal : ∀ a b : String × ℝ,
            decide (a.2 ≤ b.2) || decide (b.2 ≤ a.2) := by
          intro a b
          rcases le_total a.2 b.2 with hle | hle <;> simp [hle]
        have hs := List.sorted_mergeSort htrans htotal
          (nearbyUnsorted vp vid center.lat center.lon radius)
        have hs2 : List.Pairwise (fun a b : String × ℝ => a.2 ≤ b.2)
            (nearbySorted vp vid center.lat center.lon radius) :=
          (hs.imp (fun hab => of_decide_eq_true hab))
        exact hs2.sublist (List.take_sublist limit _)
      · rw [List.forall_iff_forall_mem]
        intro e he
        have he1 : e ∈ nearbySorted vp vid center.lat center.lon radius :=
          List.take_subset limit _ he
        have he2 : e ∈ nearbyUnsorted vp vid center.lat center.lon radius := by
          unfold nearbySorted at he1
          exact List.mem_mergeSort.mp he1
        unfold nearbyUnsorted at he2
        rcases List.mem_filterMap.mp he2 with ⟨r, -, hfe⟩
        dsimp only at hfe
        split at hfe
        · exact absurd hfe (by simp)
        · split at hfe
          case isTrue hd =>
            rcases Option.some.injEq .. ▸ hfe with rfl
            exact hd
          case isFalse => exact absurd hfe (by simp)
      · exact ⟨_, List.take_append_drop limit _⟩
      · calc ((nearbySorted vp vid center.lat center.lon radius).take
              limit).length
            ≤ (nearbySorted vp vid center.lat center.lon radius).length :=
              (List.take_sublist limit _).length_le
          _ = (nearbyUnsorted vp vid center.lat center.lon radius).length :=
              List.length_mergeSort _
          _ ≤ (validRows vp).length := List.length_filterMap_le _ _
          _ = countConsidered vp := rfl

/-- The output of vehicles_near_vehicle on a snapshot holding only the
reference vehicle V1: an empty nearby list and one considered row. -/
def exNearbyOut : NearbyOut :=
  { center := {
      vehicle_id := "V1"
      lat := 42
      lon := -71
      route_id := none
      trip_id := none
      feed_timestamp := none
      vehicle_timestamp := none }
    nearby := []
    count_considered := 1 }

/-- C5 witness: the result-shape theorem applied to the concrete
single-vehicle snapshot, whose call evaluates to exNearbyOut. -/
theorem nearby_result_witness :
    List.Sorted (fun a b : String × ℝ => a.2 ≤ b.2) exNearbyOut.nearby ∧
    exNearbyOut.nearby.Forall (fun e => e.2 ≤ (200 : ℝ)) ∧
    exNearbyOut.nearby <+:
      nearbySorted [rowV1] "V1" exNearbyOut.center.lat
        exNearbyOut.center.lon 200 ∧
    exNearbyOut.nearby.length ≤ exNearbyOut.count_considered := by
  have hsorted : nearbySorted [rowV1] "V1" exNearbyOut.center.lat
      exNearbyOut.center.lon 200 = [] := by
    unfold nearbySorted
    rw [show nearbyUnsorted [rowV1] "V1" exNearbyOut.center.lat
      exNearbyOut.center.lon 200 = [] from rfl]
    exact List.mergeSort_nil
  have hmain : vehiclesNearVehicle none [rowV1] "V1" 200 50 =
      Except.ok exNearbyOut := by
    have hstep : vehiclesNearVehicle none [rowV1] "V1" 200 50 =
        (getVehiclePosition none [rowV1] "V1").bind (fun center =>
          Except.ok {
            center := center
            nearby :=
              (nearbySorted [rowV1] "V1" center.lat center.lon 200).take 50
            count_considered := countConsidered [rowV1] }) := rfl
    rw [hstep,
      show getVehiclePosition none [rowV1] "V1" = Except.ok exNearbyOut.center
        from rfl]
    show Except.ok {
        center := exNearbyOut.center
        nearby := (nearbySorted [rowV1] "V1" exNearbyOut.center.lat
          exNearbyOut.center.lon 200).take 50
        count_considered := countConsidered [rowV1] } = Except.ok exNearbyOut
    rw [hsorted]
    rfl
  exact nearby_result_spec none [rowV1] "V1" 200 50 exNearbyOut hmain

end Transit
